import Mathlib

/-!
Shallow embedding of the instance-spec assembly subsystem of
`propolis-server` (`src/bin/propolis-server/src/lib/spec.rs`).

The functions of `spec.rs` are translated directly.  Types that `spec.rs`
uses but whose code lives elsewhere in the repository or in third-party
crates (`PciPath`, the `SpecBuilder` assembly delegate, the `config`
structures, `toml::Value`) are modelled from the specification document and
the documented behavior of those crates; each such definition carries a doc
comment saying so.  The `falcon` build feature is compiled out, as in the
default build, so the `softnpu-*` and `pci-virtio-9p` driver strings fall
through to the unrecognized-device arm of the dispatcher.
-/

/-- A type of PCI device; device numbers on the PCI bus are partitioned by
slot type (`SlotType` in spec.rs). -/
inductive SlotType where
  | Nic
  | Disk
  | CloudInit
deriving DecidableEq, Repr

/-- Modelled from the spec: `PciPath` lives in the `propolis_api_types`
crate, outside `src/`.  An address triple (bus, device, function); the Rust
components are `u8`.  -/
structure PciPath where
  bus : Nat
  device : Nat
  function : Nat
deriving DecidableEq, Repr

/-- Modelled from the spec: `PciPath::new` fails when any component is out
of its valid numeric range (bus fits in 8 bits, device in 5, function
in 3). -/
def PciPath.new (b d f : Nat) : Except Unit PciPath :=
  if b ≤ 255 ∧ d ≤ 31 ∧ f ≤ 7 then .ok ⟨b, d, f⟩ else .error ()

/-- Modelled from the spec: the textual rendering of a `PciPath` used by its
`Display` implementation, a dotted bus.device.function triple. -/
def pciPathDisplay (p : PciPath) : String :=
  toString p.bus ++ "." ++ toString p.device ++ "." ++ toString p.function

/-- Splits a character list on a separator character; the list of chunks is
never empty. -/
def splitOnChar (c : Char) : List Char → List (List Char)
  | [] => [[]]
  | x :: xs =>
    match splitOnChar c xs with
    | [] => if x = c then [[], []] else [[x]]
    | y :: ys => if x = c then [] :: y :: ys else (x :: y) :: ys

/-- Reads a non-empty all-digit character list as a decimal number. -/
def charsToNatAux : List Char → Nat → Option Nat
  | [], acc => some acc
  | c :: cs, acc =>
    if c.isDigit then charsToNatAux cs (acc * 10 + (c.toNat - 48)) else none

/-- Reads a non-empty all-digit character list as a decimal number. -/
def charsToNat? : List Char → Option Nat
  | [] => none
  | l => charsToNatAux l 0

/-- Modelled from the spec: `PciPath::from_str` parses a dotted textual
address, failing on malformed text or out-of-range components. -/
def pciPathFromStr (s : String) : Option PciPath :=
  match splitOnChar '.' s.data with
  | [a, b, c] =>
    match charsToNat? a, charsToNat? b, charsToNat? c with
    | some bus, some dev, some fn =>
      match PciPath.new bus dev fn with
      | .ok p => some p
      | .error _ => none
    | _, _, _ => none
  | _ => none

/-- Modelled from the third-party `toml` crate: a TOML value.  Only the
shapes this subsystem inspects are distinguished; every other shape
(float, datetime, array, table) is collapsed into `other`, on which both
accessors below return `none` exactly as in the crate. -/
inductive TomlValue where
  | boolean (b : Bool)
  | str (s : String)
  | integer (n : Int)
  | other
deriving DecidableEq, Repr

/-- Modelled from the `toml` crate: `Value::as_bool` extracts the value
only when it is an actual TOML boolean. -/
def TomlValue.as_bool : TomlValue → Option Bool
  | .boolean b => some b
  | _ => none

/-- Modelled from the `toml` crate: `Value::as_str` extracts the value only
when it is a TOML string. -/
def TomlValue.as_str : TomlValue → Option String
  | .str s => some s
  | _ => none

/-- Modelled from the `toml` crate: the `Display` rendering of a value,
used only inside error-message payloads. -/
def tomlDisplay : TomlValue → String
  | .boolean b => if b then "true" else "false"
  | .str s => "\"" ++ s ++ "\""
  | .integer n => toString n
  | .other => "<value>"

/-- Rust `str::parse::<bool>`: accepts exactly the strings `true` and
`false`. -/
def parseRustBool (s : String) : Option Bool :=
  if s = "true" then some true
  else if s = "false" then some false
  else none

/-- Lookup in a free-form option map (a `BTreeMap<String, toml::Value>` in
the source), modelled as an association list. -/
def optGet (opts : List (String × TomlValue)) (k : String) : Option TomlValue :=
  (opts.find? (fun p => p.1 = k)).map (fun p => p.2)

/-- Modelled from the spec: a block-device table entry of the server
configuration (`config::BlockDevice`): a backend-type string and a
free-form option map. -/
structure BlockDevice where
  bdtype : String
  options : List (String × TomlValue)
deriving DecidableEq, Repr

/-- Modelled from the spec: a device table entry of the server configuration
(`config::Device`): a driver string and a free-form option map. -/
structure Device where
  driver : String
  options : List (String × TomlValue)
deriving DecidableEq, Repr

/-- Modelled from the spec: `config::Device::get_string` returns the option
value when it is a TOML string. -/
def Device.get_string (d : Device) (k : String) : Option String :=
  (optGet d.options k).bind TomlValue.as_str

/-- Modelled from the spec: `config::Device::get::<PciPath>` reads an
option as a textual PCI address and parses it. -/
def Device.getPciPath (d : Device) (k : String) : Option PciPath :=
  (d.get_string k).bind pciPathFromStr

/-- Modelled from the spec: a PCI bridge entry of the server configuration
(`config::PciBridge`): a downstream bus number and a textual PCI path. -/
structure PciBridge where
  downstream_bus : Nat
  pci_path : String
deriving DecidableEq, Repr

/-- Modelled from the spec: the chipset section of the server
configuration, a free-form option map. -/
structure Chipset where
  options : List (String × TomlValue)
deriving DecidableEq, Repr

/-- Modelled from the spec: the parsed server configuration document
(`config::Config`): chipset options, the device table, the block-device
table and the PCI bridge list. -/
structure Config where
  chipset : Chipset
  devices : List (String × Device)
  block_devs : List (String × BlockDevice)
  pci_bridges : List PciBridge
deriving DecidableEq, Repr

/-- Modelled from the spec: the fields of `InstanceProperties` that spec
assembly reads (vcpu count and memory size). -/
structure InstanceProperties where
  vcpus : Nat
  memory : Nat
deriving DecidableEq, Repr

/-- Modelled from the spec: a storage backend variant of the versioned
instance spec (`StorageBackendV0`). -/
inductive StorageBackendV0 where
  | File (path : String) (readonly : Bool)
  | Blob (base64 : String) (readonly : Bool)
  | Crucible (request_json : String) (readonly : Bool)
deriving DecidableEq, Repr

/-- Modelled from the spec: a storage device variant of the versioned
instance spec (`StorageDeviceV0`). -/
inductive StorageDeviceV0 where
  | VirtioDisk (backend_name : String) (pci_path : PciPath)
  | NvmeDisk (backend_name : String) (pci_path : PciPath)
deriving DecidableEq, Repr

/-- The PCI path occupied by a storage device. -/
def StorageDeviceV0.pciPath : StorageDeviceV0 → PciPath
  | .VirtioDisk _ p => p
  | .NvmeDisk _ p => p

/-- The backend name referenced by a storage device. -/
def StorageDeviceV0.backendName : StorageDeviceV0 → String
  | .VirtioDisk b _ => b
  | .NvmeDisk b _ => b

/-- Modelled from the spec: a network backend variant of the versioned
instance spec (`NetworkBackendV0`). -/
inductive NetworkBackendV0 where
  | Virtio (vnic_name : String)
deriving DecidableEq, Repr

/-- Modelled from the spec: a network device variant of the versioned
instance spec (`NetworkDeviceV0`). -/
inductive NetworkDeviceV0 where
  | VirtioNic (backend_name : String) (pci_path : PciPath)
deriving DecidableEq, Repr

/-- The PCI path occupied by a network device. -/
def NetworkDeviceV0.pciPath : NetworkDeviceV0 → PciPath
  | .VirtioNic _ p => p

/-- Modelled from the spec: a PCI-PCI bridge component
(`components::devices::PciPciBridge`). -/
structure PciPciBridge where
  downstream_bus : Nat
  pci_path : PciPath
deriving DecidableEq, Repr

/-- Modelled from the spec: the platform-panic-notification device
(`components::devices::QemuPvpanic`). -/
structure QemuPvpanic where
  enable_isa : Bool
deriving DecidableEq, Repr

/-- Modelled from the spec: the four standard serial ports. -/
inductive SerialPortNumber where
  | Com1
  | Com2
  | Com3
  | Com4
deriving DecidableEq, Repr

/-- Ghost record of one addition accepted by the assembly delegate, used to
state sequencing properties; each `add_*` delegate operation appends one
event. -/
inductive AddEvent where
  | storage (name : String)
  | network (name : String)
  | bridge (name : String)
  | serial (port : SerialPortNumber)
  | pvpanic
deriving DecidableEq, Repr

/-- Whether an event records a PCI-bridge addition. -/
def AddEvent.isBridge : AddEvent → Bool
  | .bridge _ => true
  | _ => false

/-- Modelled from the spec: errors of the assembly delegate
(`SpecBuilderError`): PCI-path and serial-port collisions fail atomically,
and the singleton pvpanic device can be installed once. -/
inductive SpecBuilderError where
  | PciPathInUse (p : PciPath)
  | SerialPortInUse (n : SerialPortNumber)
  | PvpanicInUse
deriving DecidableEq, Repr

/-- Modelled from the spec: the state accumulated by the assembly delegate
(`SpecBuilder`): board parameters, name-to-spec maps for each component
kind, the serial ports enabled, the optional pvpanic singleton, and a ghost
trace of accepted additions. -/
structure SpecBuilderState where
  vcpus : Nat
  memory : Nat
  enable_pcie : Bool
  storage_devices : List (String × StorageDeviceV0)
  storage_backends : List (String × StorageBackendV0)
  network_devices : List (String × NetworkDeviceV0)
  network_backends : List (String × NetworkBackendV0)
  pci_bridges : List (String × PciPciBridge)
  serial_ports : List SerialPortNumber
  pvpanic : Option QemuPvpanic
  trace : List AddEvent
deriving DecidableEq, Repr

/-- Modelled from the spec: `SpecBuilder::new` starts from an empty spec
with the given board parameters. -/
def SpecBuilderState.new (vcpus memory : Nat) (enable_pcie : Bool) : SpecBuilderState :=
  { vcpus := vcpus, memory := memory, enable_pcie := enable_pcie,
    storage_devices := [], storage_backends := [],
    network_devices := [], network_backends := [],
    pci_bridges := [], serial_ports := [], pvpanic := none, trace := [] }

/-- The set of PCI paths already occupied in the spec under construction. -/
def SpecBuilderState.usedPaths (st : SpecBuilderState) : List PciPath :=
  st.storage_devices.map (fun p => p.2.pciPath)
    ++ st.network_devices.map (fun p => p.2.pciPath)
    ++ st.pci_bridges.map (fun p => p.2.pci_path)

/-- Modelled from the spec: `SpecBuilder::add_storage_device` fails
atomically when the device's PCI path is already in use, otherwise records
the device/backend pair. -/
def SpecBuilderState.add_storage_device (st : SpecBuilderState) (name : String)
    (dev : StorageDeviceV0) (backend_name : String) (backend : StorageBackendV0) :
    Except SpecBuilderError SpecBuilderState :=
  if dev.pciPath ∈ st.usedPaths then
    .error (.PciPathInUse dev.pciPath)
  else
    .ok { st with
      storage_devices := st.storage_devices ++ [(name, dev)],
      storage_backends := st.storage_backends ++ [(backend_name, backend)],
      trace := st.trace ++ [.storage name] }

/-- Modelled from the spec: `SpecBuilder::add_network_device` fails
atomically when the device's PCI path is already in use, otherwise records
the device/backend pair. -/
def SpecBuilderState.add_network_device (st : SpecBuilderState) (name : String)
    (dev : NetworkDeviceV0) (backend_name : String) (backend : NetworkBackendV0) :
    Except SpecBuilderError SpecBuilderState :=
  if dev.pciPath ∈ st.usedPaths then
    .error (.PciPathInUse dev.pciPath)
  else
    .ok { st with
      network_devices := st.network_devices ++ [(name, dev)],
      network_backends := st.network_backends ++ [(backend_name, backend)],
      trace := st.trace ++ [.network name] }

/-- Modelled from the spec: `SpecBuilder::add_pci_bridge` fails atomically
when the bridge's PCI path is already in use. -/
def SpecBuilderState.add_pci_bridge (st : SpecBuilderState) (name : String)
    (bridge : PciPciBridge) : Except SpecBuilderError SpecBuilderState :=
  if bridge.pci_path ∈ st.usedPaths then
    .error (.PciPathInUse bridge.pci_path)
  else
    .ok { st with
      pci_bridges := st.pci_bridges ++ [(name, bridge)],
      trace := st.trace ++ [.bridge name] }

/-- Modelled from the spec: `SpecBuilder::add_serial_port` fails when the
port number is already in use. -/
def SpecBuilderState.add_serial_port (st : SpecBuilderState) (port : SerialPortNumber) :
    Except SpecBuilderError SpecBuilderState :=
  if port ∈ st.serial_ports then
    .error (.SerialPortInUse port)
  else
    .ok { st with
      serial_ports := st.serial_ports ++ [port],
      trace := st.trace ++ [.serial port] }

/-- Modelled from the spec: `SpecBuilder::add_pvpanic_device` installs the
singleton platform-panic device, failing if one is already present. -/
def SpecBuilderState.add_pvpanic_device (st : SpecBuilderState) (dev : QemuPvpanic) :
    Except SpecBuilderError SpecBuilderState :=
  if st.pvpanic.isSome then
    .error .PvpanicInUse
  else
    .ok { st with pvpanic := some dev, trace := st.trace ++ [.pvpanic] }

/-- Modelled from the spec: the frozen instance spec (`InstanceSpecV0`)
yielded by the delegate's terminal `finish`. -/
structure InstanceSpecV0 where
  vcpus : Nat
  memory : Nat
  enable_pcie : Bool
  storage_devices : List (String × StorageDeviceV0)
  storage_backends : List (String × StorageBackendV0)
  network_devices : List (String × NetworkDeviceV0)
  network_backends : List (String × NetworkBackendV0)
  pci_bridges : List (String × PciPciBridge)
  serial_ports : List SerialPortNumber
  pvpanic : Option QemuPvpanic
deriving DecidableEq, Repr

/-- Modelled from the spec: `SpecBuilder::finish` consumes the delegate and
freezes its accumulated content, with no validation and no error result. -/
def SpecBuilderState.finish (st : SpecBuilderState) : InstanceSpecV0 :=
  { vcpus := st.vcpus, memory := st.memory, enable_pcie := st.enable_pcie,
    storage_devices := st.storage_devices,
    storage_backends := st.storage_backends,
    network_devices := st.network_devices,
    network_backends := st.network_backends,
    pci_bridges := st.pci_bridges,
    serial_ports := st.serial_ports,
    pvpanic := st.pvpanic }

/-- Errors that can occur while building an instance spec from component
parts (`ServerSpecBuilderError` in spec.rs).  Error-message payloads are
the `format!` strings of the source. -/
inductive ServerSpecBuilderError where
  | InnerBuilderError (e : SpecBuilderError)
  | PciPathNotParseable (s : String)
  | PciSlotInvalid (slot : Nat) (ty : SlotType)
  | UnrecognizedStorageDevice (s : String)
  | UnrecognizedStorageBackend (s : String)
  | DeviceMissingBackend (device backend : String)
  | ConfigTomlError (s : String)
  | SerializationError (name msg : String)
deriving DecidableEq, Repr

/-- `slot_to_pci_path` of spec.rs: translates a device type and PCI slot
into a concrete PCI path by the fixed partitioning scheme.  The slot is the
`u8` payload of `api::Slot`. -/
def slot_to_pci_path (slot : Nat) (ty : SlotType) :
    Except ServerSpecBuilderError PciPath :=
  match ty with
  | .Nic =>
    if slot ≤ 7 then
      (PciPath.new 0 (slot + 0x8) 0).mapError (fun _ => .PciSlotInvalid slot ty)
    else .error (.PciSlotInvalid slot ty)
  | .Disk =>
    if slot ≤ 7 then
      (PciPath.new 0 (slot + 0x10) 0).mapError (fun _ => .PciSlotInvalid slot ty)
    else .error (.PciSlotInvalid slot ty)
  | .CloudInit =>
    if slot = 0 then
      (PciPath.new 0 (slot + 0x18) 0).mapError (fun _ => .PciSlotInvalid slot ty)
    else .error (.PciSlotInvalid slot ty)

/-- `pci_path_to_nic_names` of spec.rs: generates NIC device and backend
names from the NIC's PCI path. -/
def pci_path_to_nic_names (path : PciPath) : String × String :=
  ("vnic-" ++ pciPathDisplay path, "vnic-" ++ pciPathDisplay path ++ "-backend")

/-- The `readonly` computation of `make_storage_backend_from_config`: a
boolean option is used as given, a string option is parsed as a Rust
boolean with parse failure discarded, and everything else (a missing
option included) falls back to `false`. -/
def fileBackendReadonly (options : List (String × TomlValue)) : Bool :=
  (match optGet options "readonly" with
    | some (.boolean ro) => some ro
    | some (.str v) => parseRustBool v
    | _ => none).getD false

/-- `make_storage_backend_from_config` of spec.rs. -/
def make_storage_backend_from_config (name : String) (backend : BlockDevice) :
    Except ServerSpecBuilderError StorageBackendV0 :=
  match backend.bdtype with
  | "file" => do
    let pathVal ← match optGet backend.options "path" with
      | some v => Except.ok v
      | none => Except.error (ServerSpecBuilderError.ConfigTomlError
          ("Couldn't get path for file backend " ++ name))
    let path ← match pathVal.as_str with
      | some s => Except.ok s
      | none => Except.error (ServerSpecBuilderError.ConfigTomlError
          ("Couldn't parse path for file backend " ++ name))
    Except.ok (StorageBackendV0.File path (fileBackendReadonly backend.options))
  | _ =>
    Except.error (ServerSpecBuilderError.UnrecognizedStorageBackend backend.bdtype)

/-- The two storage device interfaces recognized by
`make_storage_device_from_config`. -/
inductive DeviceInterface where
  | Virtio
  | Nvme
deriving DecidableEq, Repr

/-- `make_storage_device_from_config` of spec.rs. -/
def make_storage_device_from_config (name : String) (device : Device) :
    Except ServerSpecBuilderError StorageDeviceV0 := do
  let interface ← match device.driver with
    | "pci-virtio-block" => Except.ok DeviceInterface.Virtio
    | "pci-nvme" => Except.ok DeviceInterface.Nvme
    | _ => Except.error (ServerSpecBuilderError.ConfigTomlError
        ("storage device " ++ name ++ " has invalid driver " ++ device.driver))
  let bdVal ← match optGet device.options "block_dev" with
    | some v => Except.ok v
    | none => Except.error (ServerSpecBuilderError.ConfigTomlError
        ("Couldn't get block_dev for storage device " ++ name))
  let backend_name ← match bdVal.as_str with
    | some s => Except.ok s
    | none => Except.error (ServerSpecBuilderError.ConfigTomlError
        ("Couldn't parse block_dev for storage device " ++ name))
  let pci_path ← match device.getPciPath "pci-path" with
    | some p => Except.ok p
    | none => Except.error (ServerSpecBuilderError.ConfigTomlError
        ("Failed to get PCI path for storage device " ++ name))
  match interface with
  | DeviceInterface.Virtio =>
    Except.ok (StorageDeviceV0.VirtioDisk backend_name pci_path)
  | DeviceInterface.Nvme =>
    Except.ok (StorageDeviceV0.NvmeDisk backend_name pci_path)

/-- `ServerSpecBuilder` of spec.rs: wraps the assembly delegate. -/
structure ServerSpecBuilder where
  builder : SpecBuilderState
deriving DecidableEq, Repr

/-- `ServerSpecBuilder::new` of spec.rs: reads the chipset `enable-pcie`
option (absent means `false`, a non-boolean value is a config error),
creates the delegate and unconditionally installs the pvpanic device. -/
def ServerSpecBuilder.new (properties : InstanceProperties) (config : Config) :
    Except ServerSpecBuilderError ServerSpecBuilder := do
  let enable_pcie ← match optGet config.chipset.options "enable-pcie" with
    | none => Except.ok false
    | some v =>
      match v.as_bool with
      | some b => Except.ok b
      | none => Except.error (ServerSpecBuilderError.ConfigTomlError
          ("Invalid value " ++ tomlDisplay v ++ " for enable-pcie flag in chipset"))
  let builder := SpecBuilderState.new properties.vcpus properties.memory enable_pcie
  let builder ← (builder.add_pvpanic_device { enable_isa := true }).mapError
    ServerSpecBuilderError.InnerBuilderError
  Except.ok { builder := builder }

/-- A NIC request (`NetworkInterfaceRequest`): the name of the host vNIC to
bind to, and the logical slot. -/
structure NetworkInterfaceRequest where
  name : String
  slot : Nat
deriving DecidableEq, Repr

/-- A disk request (`DiskRequest`).  The opaque volume construction request
is carried as its JSON serialization: `serde_json::to_string` on the plain
data enum `VolumeConstructionRequest` is infallible, so the
`SerializationError` arm of the source is unreachable and the payload is
modelled pre-serialized. -/
structure DiskRequest where
  name : String
  slot : Nat
  read_only : Bool
  device : String
  volume_construction_request : String
deriving DecidableEq, Repr

/-- `ServerSpecBuilder::add_nic_from_request` of spec.rs. -/
def ServerSpecBuilder.add_nic_from_request (b : ServerSpecBuilder)
    (nic : NetworkInterfaceRequest) :
    Except ServerSpecBuilderError ServerSpecBuilder := do
  let pci_path ← slot_to_pci_path nic.slot .Nic
  let names := pci_path_to_nic_names pci_path
  let device_name := names.1
  let backend_name := names.2
  let device_spec := NetworkDeviceV0.VirtioNic backend_name pci_path
  let backend_spec := NetworkBackendV0.Virtio nic.name
  let builder ← (b.builder.add_network_device device_name device_spec
      backend_name backend_spec).mapError ServerSpecBuilderError.InnerBuilderError
  Except.ok { builder := builder }

/-- `ServerSpecBuilder::add_disk_from_request` of spec.rs. -/
def ServerSpecBuilder.add_disk_from_request (b : ServerSpecBuilder)
    (disk : DiskRequest) : Except ServerSpecBuilderError ServerSpecBuilder := do
  let pci_path ← slot_to_pci_path disk.slot .Disk
  let backend_name := disk.name
  let backend_spec :=
    StorageBackendV0.Crucible disk.volume_construction_request disk.read_only
  let device_name := disk.name
  let device_spec ← match disk.device with
    | "virtio" => Except.ok (StorageDeviceV0.VirtioDisk disk.name pci_path)
    | "nvme" => Except.ok (StorageDeviceV0.NvmeDisk disk.name pci_path)
    | _ => Except.error (ServerSpecBuilderError.UnrecognizedStorageDevice disk.device)
  let builder ← (b.builder.add_storage_device device_name device_spec
      backend_name backend_spec).mapError ServerSpecBuilderError.InnerBuilderError
  Except.ok { builder := builder }

/-- `ServerSpecBuilder::add_cloud_init_from_request` of spec.rs. -/
def ServerSpecBuilder.add_cloud_init_from_request (b : ServerSpecBuilder)
    (base64 : String) : Except ServerSpecBuilderError ServerSpecBuilder := do
  let pci_path ← slot_to_pci_path 0 .CloudInit
  let backend_spec := StorageBackendV0.Blob base64 true
  let device_spec := StorageDeviceV0.VirtioDisk "cloud-init" pci_path
  let builder ← (b.builder.add_storage_device "cloud-init" device_spec
      "cloud-init" backend_spec).mapError ServerSpecBuilderError.InnerBuilderError
  Except.ok { builder := builder }

/-- `ServerSpecBuilder::add_network_device_from_config` of spec.rs. -/
def ServerSpecBuilder.add_network_device_from_config (b : ServerSpecBuilder)
    (name : String) (device : Device) :
    Except ServerSpecBuilderError ServerSpecBuilder := do
  let vnic_name ← match device.get_string "vnic" with
    | some s => Except.ok s
    | none => Except.error (ServerSpecBuilderError.ConfigTomlError
        ("Failed to get vNIC name for device " ++ name))
  let pci_path ← match device.getPciPath "pci-path" with
    | some p => Except.ok p
    | none => Except.error (ServerSpecBuilderError.ConfigTomlError
        ("Failed to get PCI path for network device " ++ name))
  let names := pci_path_to_nic_names pci_path
  let device_name := names.1
  let backend_name := names.2
  let backend_spec := NetworkBackendV0.Virtio vnic_name
  let device_spec := NetworkDeviceV0.VirtioNic backend_name pci_path
  let builder ← (b.builder.add_network_device device_name device_spec
      backend_name backend_spec).mapError ServerSpecBuilderError.InnerBuilderError
  Except.ok { builder := builder }

/-- `ServerSpecBuilder::add_pci_bridge_from_config` of spec.rs. -/
def ServerSpecBuilder.add_pci_bridge_from_config (b : ServerSpecBuilder)
    (bridge : PciBridge) : Except ServerSpecBuilderError ServerSpecBuilder := do
  let name := "pci-bridge-" ++ toString bridge.downstream_bus
  let pci_path ← match pciPathFromStr bridge.pci_path with
    | some p => Except.ok p
    | none => Except.error (ServerSpecBuilderError.PciPathNotParseable bridge.pci_path)
  let builder ← (b.builder.add_pci_bridge name
      { downstream_bus := bridge.downstream_bus, pci_path := pci_path }).mapError
      ServerSpecBuilderError.InnerBuilderError
  Except.ok { builder := builder }

/-- The body of the device-table loop of
`ServerSpecBuilder::add_devices_from_config`, for one `(name, device)`
entry.  The `falcon`-gated arms are compiled out. -/
def ServerSpecBuilder.addDeviceEntry (b : ServerSpecBuilder) (config : Config)
    (device_name : String) (device : Device) :
    Except ServerSpecBuilderError ServerSpecBuilder :=
  match device.driver with
  | "pci-virtio-block" | "pci-nvme" => do
    let device_spec ← make_storage_device_from_config device_name device
    let backend_name := device_spec.backendName
    let backend_config ← match (config.block_devs.find?
        (fun p => p.1 = backend_name)).map (fun p => p.2) with
      | some c => Except.ok c
      | none => Except.error (ServerSpecBuilderError.DeviceMissingBackend
          device_name backend_name)
    let backend_spec ← make_storage_backend_from_config backend_name backend_config
    let builder ← (b.builder.add_storage_device device_name device_spec
        backend_name backend_spec).mapError ServerSpecBuilderError.InnerBuilderError
    Except.ok { builder := builder }
  | "pci-virtio-viona" => b.add_network_device_from_config device_name device
  | _ => Except.error (ServerSpecBuilderError.ConfigTomlError
      ("Unrecognized device type " ++ device.driver))

/-- The device-table loop of `add_devices_from_config`. -/
def processDevices (config : Config) (b : ServerSpecBuilder) :
    List (String × Device) → Except ServerSpecBuilderError ServerSpecBuilder
  | [] => .ok b
  | (name, dev) :: rest => do
    let b' ← b.addDeviceEntry config name dev
    processDevices config b' rest

/-- The bridge-list loop of `add_devices_from_config`. -/
def processBridges (b : ServerSpecBuilder) :
    List PciBridge → Except ServerSpecBuilderError ServerSpecBuilder
  | [] => .ok b
  | bridge :: rest => do
    let b' ← b.add_pci_bridge_from_config bridge
    processBridges b' rest

/-- `ServerSpecBuilder::add_devices_from_config` of spec.rs: the whole
device table is processed, then the PCI bridge list. -/
def ServerSpecBuilder.add_devices_from_config (b : ServerSpecBuilder)
    (config : Config) : Except ServerSpecBuilderError ServerSpecBuilder := do
  let b' ← processDevices config b config.devices
  processBridges b' config.pci_bridges

/-- `ServerSpecBuilder::add_serial_port` of spec.rs. -/
def ServerSpecBuilder.add_serial_port (b : ServerSpecBuilder)
    (port : SerialPortNumber) : Except ServerSpecBuilderError ServerSpecBuilder := do
  let builder ← (b.builder.add_serial_port port).mapError
    ServerSpecBuilderError.InnerBuilderError
  Except.ok { builder := builder }

/-- `ServerSpecBuilder::finish` of spec.rs: consumes the builder and
returns the assembled spec directly. -/
def ServerSpecBuilder.finish (b : ServerSpecBuilder) : InstanceSpecV0 :=
  b.builder.finish

/-! ## Helper lemmas -/

theorem except_ok_bind {ε α β : Type} (a : α) (f : α → Except ε β) :
    (Except.ok a : Except ε α) >>= f = f a := rfl

theorem except_error_bind {ε α β : Type} (e : ε) (f : α → Except ε β) :
    (Except.error e : Except ε α) >>= f = Except.error e := rfl

theorem except_mapError_ok {ε ε' α : Type} (a : α) (f : ε → ε') :
    (Except.ok a : Except ε α).mapError f = Except.ok a := rfl

theorem except_mapError_error {ε ε' α : Type} (e : ε) (f : ε → ε') :
    (Except.error e : Except ε α).mapError f = Except.error (f e) := rfl

theorem exceptBind_ok {ε α β : Type} {e : Except ε α} {f : α → Except ε β}
    {b : β} (h : e >>= f = .ok b) : ∃ a, e = .ok a ∧ f a = .ok b := by
  cases e with
  | ok a => exact ⟨a, rfl, h⟩
  | error err => exact absurd h (by simp [except_error_bind])

theorem exceptBind_error {ε α β : Type} {e : Except ε α} {f : α → Except ε β}
    {err : ε} (h : e >>= f = .error err) :
    e = .error err ∨ ∃ a, e = .ok a ∧ f a = .error err := by
  cases e with
  | ok a => exact Or.inr ⟨a, rfl, h⟩
  | error e' => left; cases h; rfl

theorem slotToPciPath_nic_ok (slot : Nat) (h : slot ≤ 7) :
    slot_to_pci_path slot .Nic = .ok ⟨0, slot + 8, 0⟩ := by
  simp only [slot_to_pci_path, PciPath.new]
  rw [if_pos h, if_pos ⟨by omega, by omega, by omega⟩]
  rfl

theorem slotToPciPath_disk_ok (slot : Nat) (h : slot ≤ 7) :
    slot_to_pci_path slot .Disk = .ok ⟨0, slot + 16, 0⟩ := by
  simp only [slot_to_pci_path, PciPath.new]
  rw [if_pos h, if_pos ⟨by omega, by omega, by omega⟩]
  rfl

theorem slotToPciPath_cloudInit_ok :
    slot_to_pci_path 0 .CloudInit = .ok ⟨0, 24, 0⟩ := rfl

theorem slotToPciPath_nic_err (slot : Nat) (h : 7 < slot) :
    slot_to_pci_path slot .Nic = .error (.PciSlotInvalid slot .Nic) := by
  simp only [slot_to_pci_path]
  rw [if_neg (by omega)]

theorem slotToPciPath_disk_err (slot : Nat) (h : 7 < slot) :
    slot_to_pci_path slot .Disk = .error (.PciSlotInvalid slot .Disk) := by
  simp only [slot_to_pci_path]
  rw [if_neg (by omega)]

theorem slotToPciPath_cloudInit_err (slot : Nat) (h : slot ≠ 0) :
    slot_to_pci_path slot .CloudInit =
      .error (.PciSlotInvalid slot .CloudInit) := by
  simp only [slot_to_pci_path]
  rw [if_neg h]

/-! ## Claim theorems -/

/-- C1: for every slot and device class, `slot_to_pci_path` succeeds exactly
on the valid slots and maps them by the fixed partition: NIC slots 0–7 to
bus 0, device 0x08+s, function 0; Disk slots 0–7 to device 0x10+s;
CloudInit slot 0 to device 0x18; every other pair fails with the
invalid-slot error carrying that slot and class. -/
theorem claim_C1_slot_partition (slot : Nat) :
    (slot ≤ 7 → slot_to_pci_path slot .Nic = .ok ⟨0, slot + 8, 0⟩) ∧
    (slot ≤ 7 → slot_to_pci_path slot .Disk = .ok ⟨0, slot + 16, 0⟩) ∧
    (slot = 0 → slot_to_pci_path slot .CloudInit = .ok ⟨0, 24, 0⟩) ∧
    (7 < slot → slot_to_pci_path slot .Nic = .error (.PciSlotInvalid slot .Nic)) ∧
    (7 < slot → slot_to_pci_path slot .Disk = .error (.PciSlotInvalid slot .Disk)) ∧
    (slot ≠ 0 → slot_to_pci_path slot .CloudInit =
      .error (.PciSlotInvalid slot .CloudInit)) := by
  refine ⟨slotToPciPath_nic_ok slot, slotToPciPath_disk_ok slot, ?_,
    slotToPciPath_nic_err slot, slotToPciPath_disk_err slot,
    slotToPciPath_cloudInit_err slot⟩
  intro h
  subst h
  exact slotToPciPath_cloudInit_ok

/-- Witness for C1 at concrete slots. -/
theorem claim_C1_slot_partition_witness :
    slot_to_pci_path 5 .Nic = .ok ⟨0, 13, 0⟩ ∧
    slot_to_pci_path 5 .Disk = .ok ⟨0, 21, 0⟩ ∧
    slot_to_pci_path 0 .CloudInit = .ok ⟨0, 24, 0⟩ ∧
    slot_to_pci_path 8 .Nic = .error (.PciSlotInvalid 8 .Nic) ∧
    slot_to_pci_path 8 .Disk = .error (.PciSlotInvalid 8 .Disk) ∧
    slot_to_pci_path 1 .CloudInit = .error (.PciSlotInvalid 1 .CloudInit) :=
  ⟨(claim_C1_slot_partition 5).1 (by decide),
   (claim_C1_slot_partition 5).2.1 (by decide),
   (claim_C1_slot_partition 0).2.2.1 rfl,
   (claim_C1_slot_partition 8).2.2.2.1 (by decide),
   (claim_C1_slot_partition 8).2.2.2.2.1 (by decide),
   (claim_C1_slot_partition 1).2.2.2.2.2 (by decide)⟩

/-- C7: slot-to-path allocation is injective across classes and slots: NIC
allocations are pairwise distinct with device numbers 8–15, Disk
allocations are pairwise distinct with device numbers 16–23 and disjoint
from the NIC range, and the CloudInit path (device 24) differs from both,
so slot 0 for a NIC, a disk and cloud-init map to three different paths. -/
theorem claim_C7_allocation_injective (s₁ s₂ : Nat) (h₁ : s₁ ≤ 7) (h₂ : s₂ ≤ 7) :
    ∃ pn₁ pn₂ pd₁ pd₂ pc,
      slot_to_pci_path s₁ .Nic = .ok pn₁ ∧
      slot_to_pci_path s₂ .Nic = .ok pn₂ ∧
      slot_to_pci_path s₁ .Disk = .ok pd₁ ∧
      slot_to_pci_path s₂ .Disk = .ok pd₂ ∧
      slot_to_pci_path 0 .CloudInit = .ok pc ∧
      (s₁ ≠ s₂ → pn₁ ≠ pn₂) ∧
      (s₁ ≠ s₂ → pd₁ ≠ pd₂) ∧
      8 ≤ pn₁.device ∧ pn₁.device ≤ 15 ∧
      16 ≤ pd₁.device ∧ pd₁.device ≤ 23 ∧
      pn₁ ≠ pd₂ ∧ pc ≠ pn₁ ∧ pc ≠ pd₁ ∧ pc.device = 24 := by
  refine ⟨⟨0, s₁ + 8, 0⟩, ⟨0, s₂ + 8, 0⟩, ⟨0, s₁ + 16, 0⟩, ⟨0, s₂ + 16, 0⟩,
    ⟨0, 24, 0⟩,
    slotToPciPath_nic_ok s₁ h₁, slotToPciPath_nic_ok s₂ h₂,
    slotToPciPath_disk_ok s₁ h₁, slotToPciPath_disk_ok s₂ h₂,
    slotToPciPath_cloudInit_ok, ?_, ?_,
    by simp, by simp; omega, by simp, by simp; omega, ?_, ?_, ?_, rfl⟩
  · intro hne heq
    apply hne
    have hd := congrArg PciPath.device heq
    simp at hd
    omega
  · intro hne heq
    apply hne
    have hd := congrArg PciPath.device heq
    simp at hd
    omega
  · intro heq
    have hd := congrArg PciPath.device heq
    simp at hd
    omega
  · intro heq
    have hd := congrArg PciPath.device heq
    simp at hd
    omega
  · intro heq
    have hd := congrArg PciPath.device heq
    simp at hd
    omega

/-- Witness for C7 at slots 0 and 1. -/
theorem claim_C7_allocation_injective_witness :
    ∃ pn₁ pn₂ pd₁ pd₂ pc,
      slot_to_pci_path 0 .Nic = .ok pn₁ ∧
      slot_to_pci_path 1 .Nic = .ok pn₂ ∧
      slot_to_pci_path 0 .Disk = .ok pd₁ ∧
      slot_to_pci_path 1 .Disk = .ok pd₂ ∧
      slot_to_pci_path 0 .CloudInit = .ok pc ∧
      ((0 : Nat) ≠ 1 → pn₁ ≠ pn₂) ∧
      ((0 : Nat) ≠ 1 → pd₁ ≠ pd₂) ∧
      8 ≤ pn₁.device ∧ pn₁.device ≤ 15 ∧
      16 ≤ pd₁.device ∧ pd₁.device ≤ 23 ∧
      pn₁ ≠ pd₂ ∧ pc ≠ pn₁ ∧ pc ≠ pd₁ ∧ pc.device = 24 :=
  claim_C7_allocation_injective 0 1 (by decide) (by decide)

/-- A concrete starting builder used by witnesses: 4 vcpus, 512 MiB, no
extended PCIe. -/
def sampleBuilder : ServerSpecBuilder :=
  { builder := SpecBuilderState.new 4 512 false }

/-- C2: NIC device and backend identifiers are exactly `vnic-<p>` and
`vnic-<p>-backend`, a function of the PCI path alone; a NIC added from a
request at a slot and one added from configuration whose pci-path option
equals that slot's allocated path, given the same vNIC name, submit
identical names and specs to the assembly delegate, so the two additions
produce identical results. -/
theorem claim_C2_nic_naming_request_config_agree (path : PciPath)
    (b : ServerSpecBuilder) (slot : Nat) (vnic cfgname : String) (dev : Device)
    (hslot : slot_to_pci_path slot .Nic = .ok path)
    (hvnic : dev.get_string "vnic" = some vnic)
    (hpath : dev.getPciPath "pci-path" = some path) :
    pci_path_to_nic_names path =
      ("vnic-" ++ pciPathDisplay path,
       "vnic-" ++ pciPathDisplay path ++ "-backend") ∧
    b.add_nic_from_request ⟨vnic, slot⟩ =
      b.add_network_device_from_config cfgname dev := by
  refine ⟨rfl, ?_⟩
  simp only [ServerSpecBuilder.add_nic_from_request,
    ServerSpecBuilder.add_network_device_from_config, hslot, hvnic, hpath,
    except_ok_bind]

/-- Witness for C2: a request-driven NIC at slot 0 and a config-driven NIC
at the same allocated path with the same vNIC name. -/
theorem claim_C2_nic_naming_request_config_agree_witness :
    pci_path_to_nic_names ⟨0, 8, 0⟩ =
      ("vnic-" ++ pciPathDisplay ⟨0, 8, 0⟩,
       "vnic-" ++ pciPathDisplay ⟨0, 8, 0⟩ ++ "-backend") ∧
    sampleBuilder.add_nic_from_request ⟨"net0", 0⟩ =
      sampleBuilder.add_network_device_from_config "net"
        { driver := "pci-virtio-viona",
          options := [("vnic", .str "net0"), ("pci-path", .str "0.8.0")] } :=
  claim_C2_nic_naming_request_config_agree ⟨0, 8, 0⟩ sampleBuilder 0 "net0" "net"
    { driver := "pci-virtio-viona",
      options := [("vnic", .str "net0"), ("pci-path", .str "0.8.0")] }
    rfl rfl rfl

/-- C3: for a disk request with a valid Disk-class slot,
`add_disk_from_request` emits a virtio-block device when the interface is
`virtio` and an NVMe device when it is `nvme`, using the disk's own name as
both device and backend identifier; any other interface string fails with
the unrecognized-storage-device-interface error carrying that string, and
nothing is added to the spec under construction. -/
theorem claim_C3_disk_interface_dispatch (b : ServerSpecBuilder)
    (disk : DiskRequest) (hslot : disk.slot ≤ 7) :
    (disk.device = "virtio" →
      PciPath.mk 0 (disk.slot + 16) 0 ∉ b.builder.usedPaths →
      b.add_disk_from_request disk = .ok ⟨{ b.builder with
        storage_devices := b.builder.storage_devices ++
          [(disk.name, .VirtioDisk disk.name ⟨0, disk.slot + 16, 0⟩)],
        storage_backends := b.builder.storage_backends ++
          [(disk.name, .Crucible disk.volume_construction_request disk.read_only)],
        trace := b.builder.trace ++ [.storage disk.name] }⟩) ∧
    (disk.device = "nvme" →
      PciPath.mk 0 (disk.slot + 16) 0 ∉ b.builder.usedPaths →
      b.add_disk_from_request disk = .ok ⟨{ b.builder with
        storage_devices := b.builder.storage_devices ++
          [(disk.name, .NvmeDisk disk.name ⟨0, disk.slot + 16, 0⟩)],
        storage_backends := b.builder.storage_backends ++
          [(disk.name, .Crucible disk.volume_construction_request disk.read_only)],
        trace := b.builder.trace ++ [.storage disk.name] }⟩) ∧
    (disk.device ≠ "virtio" → disk.device ≠ "nvme" →
      b.add_disk_from_request disk =
        .error (.UnrecognizedStorageDevice disk.device)) := by
  refine ⟨?_, ?_, ?_⟩
  · intro hdev hfree
    simp only [ServerSpecBuilder.add_disk_from_request,
      slotToPciPath_disk_ok disk.slot hslot, except_ok_bind, hdev,
      SpecBuilderState.add_storage_device, StorageDeviceV0.pciPath]
    rw [if_neg hfree]
    rfl
  · intro hdev hfree
    simp only [ServerSpecBuilder.add_disk_from_request,
      slotToPciPath_disk_ok disk.slot hslot, except_ok_bind, hdev,
      SpecBuilderState.add_storage_device, StorageDeviceV0.pciPath]
    rw [if_neg hfree]
    rfl
  · intro h1 h2
    simp only [ServerSpecBuilder.add_disk_from_request,
      slotToPciPath_disk_ok disk.slot hslot, except_ok_bind]
    rfl

/-- The builder state expected after adding a virtio disk named `disk1` at
slot 0 to `sampleBuilder`. -/
def afterDisk1 : SpecBuilderState :=
  { vcpus := 4, memory := 512, enable_pcie := false,
    storage_devices := [("disk1", .VirtioDisk "disk1" ⟨0, 16, 0⟩)],
    storage_backends := [("disk1", .Crucible "vcr1" true)],
    network_devices := [], network_backends := [], pci_bridges := [],
    serial_ports := [], pvpanic := none, trace := [.storage "disk1"] }

/-- The builder state expected after adding an NVMe disk named `disk2` at
slot 1 to `sampleBuilder`. -/
def afterDisk2 : SpecBuilderState :=
  { vcpus := 4, memory := 512, enable_pcie := false,
    storage_devices := [("disk2", .NvmeDisk "disk2" ⟨0, 17, 0⟩)],
    storage_backends := [("disk2", .Crucible "vcr2" true)],
    network_devices := [], network_backends := [], pci_bridges := [],
    serial_ports := [], pvpanic := none, trace := [.storage "disk2"] }

/-- Witness for C3: a virtio disk, an NVMe disk and a `virtio-scsi` disk at
valid slots. -/
theorem claim_C3_disk_interface_dispatch_witness :
    sampleBuilder.add_disk_from_request ⟨"disk1", 0, true, "virtio", "vcr1"⟩ =
      .ok ⟨afterDisk1⟩ ∧
    sampleBuilder.add_disk_from_request ⟨"disk2", 1, true, "nvme", "vcr2"⟩ =
      .ok ⟨afterDisk2⟩ ∧
    sampleBuilder.add_disk_from_request ⟨"disk3", 0, true, "virtio-scsi", "vcr3"⟩ =
      .error (.UnrecognizedStorageDevice "virtio-scsi") :=
  ⟨(claim_C3_disk_interface_dispatch sampleBuilder
      ⟨"disk1", 0, true, "virtio", "vcr1"⟩ (by decide)).1 rfl (by decide),
   (claim_C3_disk_interface_dispatch sampleBuilder
      ⟨"disk2", 1, true, "nvme", "vcr2"⟩ (by decide)).2.1 rfl (by decide),
   (claim_C3_disk_interface_dispatch sampleBuilder
      ⟨"disk3", 0, true, "virtio-scsi", "vcr3"⟩ (by decide)).2.2
      (by decide) (by decide)⟩

theorem processDevices_append (cfg : Config) (b : ServerSpecBuilder)
    (l₁ l₂ : List (String × Device)) :
    processDevices cfg b (l₁ ++ l₂) =
      (processDevices cfg b l₁) >>= (fun b' => processDevices cfg b' l₂) := by
  induction l₁ generalizing b with
  | nil => simp [processDevices, except_ok_bind]
  | cons hd tl ih =>
    obtain ⟨name, dev⟩ := hd
    simp only [List.cons_append, processDevices]
    cases h : b.addDeviceEntry cfg name dev with
    | ok b' => simp [except_ok_bind, ih]
    | error e => simp [except_error_bind]

/-- C4: a device-table storage entry whose `block_dev` option names a
backend absent from the block-device table makes `add_devices_from_config`
fail with the device-requested-missing-backend error naming both the
device name and the missing backend name (stated for the first entry whose
processing is reached: all entries before it succeed). -/
theorem claim_C4_missing_backend (b b' : ServerSpecBuilder) (cfg : Config)
    (early late : List (String × Device)) (name : String) (dev : Device)
    (bname : String) (p : PciPath)
    (hdevs : cfg.devices = early ++ (name, dev) :: late)
    (hearly : processDevices cfg b early = .ok b')
    (hdriver : dev.driver = "pci-virtio-block" ∨ dev.driver = "pci-nvme")
    (hblock : optGet dev.options "block_dev" = some (.str bname))
    (hpath : dev.getPciPath "pci-path" = some p)
    (hmissing : cfg.block_devs.find? (fun q => q.1 = bname) = none) :
    b.add_devices_from_config cfg =
      .error (.DeviceMissingBackend name bname) := by
  have hstep : b'.addDeviceEntry cfg name dev =
      .error (.DeviceMissingBackend name bname) := by
    rcases hdriver with hd | hd <;>
    · simp only [ServerSpecBuilder.addDeviceEntry, hd,
        make_storage_device_from_config, hblock, hpath, TomlValue.as_str,
        except_ok_bind, hmissing, StorageDeviceV0.backendName]
      rfl
  simp only [ServerSpecBuilder.add_devices_from_config, hdevs,
    processDevices_append, hearly, except_ok_bind, processDevices, hstep,
    except_error_bind]

/-- Witness for C4: a single NVMe storage device whose backend name is not
in the (empty) block-device table. -/
theorem claim_C4_missing_backend_witness :
    ServerSpecBuilder.add_devices_from_config sampleBuilder
      { chipset := ⟨[]⟩,
        devices := [("disk0",
          { driver := "pci-nvme",
            options := [("block_dev", .str "bk0"), ("pci-path", .str "0.4.0")] })],
        block_devs := [], pci_bridges := [] } =
      .error (.DeviceMissingBackend "disk0" "bk0") :=
  claim_C4_missing_backend sampleBuilder sampleBuilder
    { chipset := ⟨[]⟩,
      devices := [("disk0",
        { driver := "pci-nvme",
          options := [("block_dev", .str "bk0"), ("pci-path", .str "0.4.0")] })],
      block_devs := [], pci_bridges := [] }
    [] [] "disk0"
    { driver := "pci-nvme",
      options := [("block_dev", .str "bk0"), ("pci-path", .str "0.4.0")] }
    "bk0" ⟨0, 4, 0⟩ rfl rfl (Or.inr rfl) rfl rfl rfl

/-- The builder state produced by `ServerSpecBuilder::new` on success: a
fresh delegate with the pvpanic singleton installed. -/
def freshBuilder (vcpus memory : Nat) (enable_pcie : Bool) : SpecBuilderState :=
  { SpecBuilderState.new vcpus memory enable_pcie with
      pvpanic := some ⟨true⟩, trace := [.pvpanic] }

/-- Counterexample to C5 as stated: the boolean-like string value `"true"`
for `enable-pcie` is not used as given; builder creation fails with a
configuration-format error, because `toml::Value::as_bool` accepts only an
actual TOML boolean. -/
theorem claim_C5_counterexample :
    ServerSpecBuilder.new ⟨4, 512⟩
      { chipset := ⟨[("enable-pcie", .str "true")]⟩, devices := [],
        block_devs := [], pci_bridges := [] } =
      .error (.ConfigTomlError
        "Invalid value \"true\" for enable-pcie flag in chipset") := rfl

/-- C5 (amended): `ServerSpecBuilder::new` reads the chipset `enable-pcie`
option once at builder creation: absent means `false`; an actual boolean
value is used as given; every other value shape — boolean-like strings
included — fails builder creation with the configuration-format error. -/
theorem claim_C5_enable_pcie_amended (props : InstanceProperties) (cfg : Config) :
    (optGet cfg.chipset.options "enable-pcie" = none →
      ServerSpecBuilder.new props cfg =
        .ok ⟨freshBuilder props.vcpus props.memory false⟩) ∧
    (∀ bv, optGet cfg.chipset.options "enable-pcie" = some (.boolean bv) →
      ServerSpecBuilder.new props cfg =
        .ok ⟨freshBuilder props.vcpus props.memory bv⟩) ∧
    (∀ v, optGet cfg.chipset.options "enable-pcie" = some v → v.as_bool = none →
      ServerSpecBuilder.new props cfg = .error (.ConfigTomlError
        ("Invalid value " ++ tomlDisplay v ++ " for enable-pcie flag in chipset"))) := by
  refine ⟨?_, ?_, ?_⟩
  · intro h
    simp only [ServerSpecBuilder.new, h]
    rfl
  · intro bv h
    simp only [ServerSpecBuilder.new, h, TomlValue.as_bool]
    rfl
  · intro v h hb
    simp only [ServerSpecBuilder.new, h, hb]
    rfl

/-- Witness for C5 (amended) at concrete configurations: option absent, an
actual boolean, and a non-boolean integer value. -/
theorem claim_C5_enable_pcie_amended_witness :
    ServerSpecBuilder.new ⟨4, 512⟩
      { chipset := ⟨[]⟩, devices := [], block_devs := [], pci_bridges := [] } =
      .ok ⟨freshBuilder 4 512 false⟩ ∧
    ServerSpecBuilder.new ⟨4, 512⟩
      { chipset := ⟨[("enable-pcie", .boolean true)]⟩, devices := [],
        block_devs := [], pci_bridges := [] } =
      .ok ⟨freshBuilder 4 512 true⟩ ∧
    ServerSpecBuilder.new ⟨4, 512⟩
      { chipset := ⟨[("enable-pcie", .integer 1)]⟩, devices := [],
        block_devs := [], pci_bridges := [] } =
      .error (.ConfigTomlError
        ("Invalid value " ++ tomlDisplay (.integer 1) ++
          " for enable-pcie flag in chipset")) :=
  ⟨(claim_C5_enable_pcie_amended ⟨4, 512⟩
      { chipset := ⟨[]⟩, devices := [], block_devs := [],
        pci_bridges := [] }).1 rfl,
   (claim_C5_enable_pcie_amended ⟨4, 512⟩
      { chipset := ⟨[("enable-pcie", .boolean true)]⟩, devices := [],
        block_devs := [], pci_bridges := [] }).2.1 true rfl,
   (claim_C5_enable_pcie_amended ⟨4, 512⟩
      { chipset := ⟨[("enable-pcie", .integer 1)]⟩, devices := [],
        block_devs := [], pci_bridges := [] }).2.2 (.integer 1) rfl rfl⟩

/-- C6: `make_storage_backend_from_config` recognizes exactly the backend
type `file` (string-valued `path` option required, with a configuration
error naming the backend when missing or non-string); any other type fails
with the unrecognized-storage-backend error carrying that string; the
`readonly` field comes from a boolean option or a parseable boolean
string, and is `false` in every other case, absent or unparseable
included. -/
theorem claim_C6_file_backend (name : String) (backend : BlockDevice) :
    (backend.bdtype ≠ "file" →
      make_storage_backend_from_config name backend =
        .error (.UnrecognizedStorageBackend backend.bdtype)) ∧
    (backend.bdtype = "file" → optGet backend.options "path" = none →
      make_storage_backend_from_config name backend =
        .error (.ConfigTomlError ("Couldn't get path for file backend " ++ name))) ∧
    (backend.bdtype = "file" → ∀ v, optGet backend.options "path" = some v →
      v.as_str = none →
      make_storage_backend_from_config name backend =
        .error (.ConfigTomlError ("Couldn't parse path for file backend " ++ name))) ∧
    (backend.bdtype = "file" → ∀ p, optGet backend.options "path" = some (.str p) →
      make_storage_backend_from_config name backend =
        .ok (.File p (fileBackendReadonly backend.options))) ∧
    (optGet backend.options "readonly" = none →
      fileBackendReadonly backend.options = false) ∧
    (∀ rb, optGet backend.options "readonly" = some (.boolean rb) →
      fileBackendReadonly backend.options = rb) ∧
    (∀ s rb, optGet backend.options "readonly" = some (.str s) →
      parseRustBool s = some rb → fileBackendReadonly backend.options = rb) ∧
    (∀ s, optGet backend.options "readonly" = some (.str s) →
      parseRustBool s = none → fileBackendReadonly backend.options = false) ∧
    (∀ v, optGet backend.options "readonly" = some v → v.as_bool = none →
      v.as_str = none → fileBackendReadonly backend.options = false) := by
  refine ⟨?_, ?_, ?_, ?_, ?_, ?_, ?_, ?_, ?_⟩
  · intro h
    simp only [make_storage_backend_from_config]
  · intro h hnone
    simp only [make_storage_backend_from_config, h, hnone, except_error_bind]
  · intro h v hv hs
    simp only [make_storage_backend_from_config, h, hv, except_ok_bind, hs,
      except_error_bind]
  · intro h p hp
    simp only [make_storage_backend_from_config, h, hp, TomlValue.as_str]
    rfl
  · intro h
    simp [fileBackendReadonly, h]
  · intro rb h
    simp [fileBackendReadonly, h]
  · intro s rb h hp
    simp [fileBackendReadonly, h, hp]
  · intro s h hp
    simp [fileBackendReadonly, h, hp]
  · intro v h h1 h2
    cases v with
    | boolean b => simp [TomlValue.as_bool] at h1
    | str s => simp [TomlValue.as_str] at h2
    | integer n => simp [fileBackendReadonly, h]
    | other => simp [fileBackendReadonly, h]

/-- A concrete file-backed block device whose `readonly` option is the
unparseable boolean-like string `yes`. -/
def fileBk : BlockDevice :=
  ⟨"file", [("path", .str "/img"), ("readonly", .str "yes")]⟩

/-- Witness for C6: an unrecognized backend type, a file backend with an
unparseable boolean-like `readonly` string, and its readonly default. -/
theorem claim_C6_file_backend_witness :
    make_storage_backend_from_config "bk" ⟨"nfs", []⟩ =
      .error (.UnrecognizedStorageBackend "nfs") ∧
    make_storage_backend_from_config "bk2" fileBk =
      .ok (.File "/img" (fileBackendReadonly fileBk.options)) ∧
    fileBackendReadonly fileBk.options = false :=
  ⟨(claim_C6_file_backend "bk" ⟨"nfs", []⟩).1 (by decide),
   (claim_C6_file_backend "bk2" fileBk).2.2.2.1 rfl "/img" rfl,
   (claim_C6_file_backend "bk2" fileBk).2.2.2.2.2.2.2.1 "yes" rfl rfl⟩

theorem exceptMapError_ok_inv {ε ε' α : Type} {e : Except ε α} {f : ε → ε'}
    {a : α} (h : e.mapError f = .ok a) : e = .ok a := by
  cases e with
  | ok x =>
    rw [except_mapError_ok] at h
    injection h with h
    rw [h]
  | error y =>
    rw [except_mapError_error] at h
    exact Except.noConfusion h

theorem add_storage_device_ok_trace {st st' : SpecBuilderState} {n bn : String}
    {dev : StorageDeviceV0} {bspec : StorageBackendV0}
    (h : st.add_storage_device n dev bn bspec = .ok st') :
    st'.trace = st.trace ++ [.storage n] := by
  unfold SpecBuilderState.add_storage_device at h
  split at h
  · simp at h
  · cases h
    rfl

theorem add_network_device_ok_trace {st st' : SpecBuilderState} {n bn : String}
    {dev : NetworkDeviceV0} {bspec : NetworkBackendV0}
    (h : st.add_network_device n dev bn bspec = .ok st') :
    st'.trace = st.trace ++ [.network n] := by
  unfold SpecBuilderState.add_network_device at h
  split at h
  · simp at h
  · cases h
    rfl

theorem add_pci_bridge_ok_trace {st st' : SpecBuilderState} {n : String}
    {bridge : PciPciBridge} (h : st.add_pci_bridge n bridge = .ok st') :
    st'.trace = st.trace ++ [.bridge n] := by
  unfold SpecBuilderState.add_pci_bridge at h
  split at h
  · simp at h
  · cases h
    rfl

theorem add_network_device_from_config_ok_trace {b b' : ServerSpecBuilder}
    {n : String} {dev : Device}
    (h : b.add_network_device_from_config n dev = .ok b') :
    ∃ nm, b'.builder.trace = b.builder.trace ++ [.network nm] := by
  unfold ServerSpecBuilder.add_network_device_from_config at h
  cases hv : dev.get_string "vnic" with
  | none =>
    simp only [hv, except_error_bind] at h
    exact Except.noConfusion h
  | some vn =>
    simp only [hv, except_ok_bind] at h
    cases hp : dev.getPciPath "pci-path" with
    | none =>
      simp only [hp, except_error_bind] at h
      exact Except.noConfusion h
    | some p =>
      simp only [hp, except_ok_bind] at h
      obtain ⟨builder, hb, h⟩ := exceptBind_ok h
      cases h
      exact ⟨_, add_network_device_ok_trace (exceptMapError_ok_inv hb)⟩

theorem add_pci_bridge_from_config_ok_trace {b b' : ServerSpecBuilder}
    {bridge : PciBridge} (h : b.add_pci_bridge_from_config bridge = .ok b') :
    ∃ nm, b'.builder.trace = b.builder.trace ++ [.bridge nm] := by
  unfold ServerSpecBuilder.add_pci_bridge_from_config at h
  cases hp : pciPathFromStr bridge.pci_path with
  | none =>
    simp only [hp, except_error_bind] at h
    exact Except.noConfusion h
  | some p =>
    simp only [hp, except_ok_bind] at h
    obtain ⟨builder, hb, h⟩ := exceptBind_ok h
    cases h
    exact ⟨_, add_pci_bridge_ok_trace (exceptMapError_ok_inv hb)⟩

theorem addDeviceEntry_storage_ok_trace {cfg : Config} {b b' : ServerSpecBuilder}
    {n : String} {dev : Device}
    (hdrv : dev.driver = "pci-virtio-block" ∨ dev.driver = "pci-nvme")
    (h : b.addDeviceEntry cfg n dev = .ok b') :
    b'.builder.trace = b.builder.trace ++ [.storage n] := by
  rcases hdrv with hd | hd <;>
  · simp only [ServerSpecBuilder.addDeviceEntry, hd] at h
    cases hmk : make_storage_device_from_config n dev with
    | error e' =>
      simp only [hmk, except_error_bind] at h
      exact Except.noConfusion h
    | ok dspec =>
      simp only [hmk, except_ok_bind] at h
      cases hf : (cfg.block_devs.find? (fun p => p.1 = dspec.backendName)).map
          (fun p => p.2) with
      | none =>
        simp only [hf, except_error_bind] at h
        exact Except.noConfusion h
      | some bcfg =>
        simp only [hf, except_ok_bind] at h
        cases hbk : make_storage_backend_from_config dspec.backendName bcfg with
        | error e' =>
          simp only [hbk, except_error_bind] at h
          exact Except.noConfusion h
        | ok bspec =>
          simp only [hbk, except_ok_bind] at h
          obtain ⟨builder, hb, h⟩ := exceptBind_ok h
          cases h
          exact add_storage_device_ok_trace (exceptMapError_ok_inv hb)

theorem addDeviceEntry_ok_trace {cfg : Config} {b b' : ServerSpecBuilder}
    {n : String} {dev : Device} (h : b.addDeviceEntry cfg n dev = .ok b') :
    ∃ evts, b'.builder.trace = b.builder.trace ++ evts ∧
      ∀ e ∈ evts, e.isBridge = false := by
  by_cases h1 : dev.driver = "pci-virtio-block"
  · refine ⟨[.storage n], addDeviceEntry_storage_ok_trace (Or.inl h1) h, ?_⟩
    intro e he
    simp at he
    subst he
    rfl
  · by_cases h2 : dev.driver = "pci-nvme"
    · refine ⟨[.storage n], addDeviceEntry_storage_ok_trace (Or.inr h2) h, ?_⟩
      intro e he
      simp at he
      subst he
      rfl
    · by_cases h3 : dev.driver = "pci-virtio-viona"
      · simp only [ServerSpecBuilder.addDeviceEntry, h3] at h
        obtain ⟨nm, htr⟩ := add_network_device_from_config_ok_trace h
        refine ⟨[.network nm], htr, ?_⟩
        intro e he
        simp at he
        subst he
        rfl
      · simp only [ServerSpecBuilder.addDeviceEntry] at h
        exact Except.noConfusion h

theorem processDevices_ok_trace (cfg : Config) :
    ∀ (l : List (String × Device)) (b b' : ServerSpecBuilder),
      processDevices cfg b l = .ok b' →
      ∃ evts, b'.builder.trace = b.builder.trace ++ evts ∧
        ∀ e ∈ evts, e.isBridge = false := by
  intro l
  induction l with
  | nil =>
    intro b b' h
    cases h
    exact ⟨[], by simp, by simp⟩
  | cons hd tl ih =>
    intro b b' h
    obtain ⟨nm, dv⟩ := hd
    simp only [processDevices] at h
    obtain ⟨bmid, h1, h2⟩ := exceptBind_ok h
    obtain ⟨e1, ht1, hb1⟩ := addDeviceEntry_ok_trace h1
    obtain ⟨e2, ht2, hb2⟩ := ih bmid b' h2
    refine ⟨e1 ++ e2, ?_, ?_⟩
    · rw [ht2, ht1, List.append_assoc]
    · intro e he
      rcases List.mem_append.mp he with h' | h'
      · exact hb1 e h'
      · exact hb2 e h'

theorem processBridges_ok_trace :
    ∀ (l : List PciBridge) (b b' : ServerSpecBuilder),
      processBridges b l = .ok b' →
      ∃ evts, b'.builder.trace = b.builder.trace ++ evts ∧
        ∀ e ∈ evts, e.isBridge = true := by
  intro l
  induction l with
  | nil =>
    intro b b' h
    cases h
    exact ⟨[], by simp, by simp⟩
  | cons hd tl ih =>
    intro b b' h
    simp only [processBridges] at h
    obtain ⟨bmid, h1, h2⟩ := exceptBind_ok h
    obtain ⟨nm, ht1⟩ := add_pci_bridge_from_config_ok_trace h1
    obtain ⟨e2, ht2, hb2⟩ := ih bmid b' h2
    refine ⟨.bridge nm :: e2, ?_, ?_⟩
    · rw [ht2, ht1, List.append_assoc]
      rfl
    · intro e he
      rcases List.mem_cons.mp he with h' | h'
      · subst h'
        rfl
      · exact hb2 e h'

theorem addDeviceEntry_bridges_irrelevant (cfg : Config) (br : List PciBridge)
    (b : ServerSpecBuilder) (n : String) (dev : Device) :
    b.addDeviceEntry { cfg with pci_bridges := br } n dev =
      b.addDeviceEntry cfg n dev := rfl

theorem processDevices_bridges_irrelevant (cfg : Config) (br : List PciBridge)
    (l : List (String × Device)) (b : ServerSpecBuilder) :
    processDevices { cfg with pci_bridges := br } b l = processDevices cfg b l := by
  induction l generalizing b with
  | nil => rfl
  | cons hd tl ih =>
    obtain ⟨nm, dv⟩ := hd
    simp only [processDevices, addDeviceEntry_bridges_irrelevant]
    cases h : b.addDeviceEntry cfg nm dv with
    | ok b2 => simp [except_ok_bind, ih]
    | error e => simp [except_error_bind]

/-- C8: `add_devices_from_config` processes the whole device table before
any PCI bridge: on success the delegate's trace extends by device events
followed by bridge events, and when any device entry fails the call
returns that device error no matter what the bridge list holds — no bridge
is added. -/
theorem claim_C8_devices_before_bridges (b : ServerSpecBuilder) (cfg : Config) :
    (∀ b'', b.add_devices_from_config cfg = .ok b'' →
      ∃ devEvts brEvts,
        b''.builder.trace = b.builder.trace ++ devEvts ++ brEvts ∧
        (∀ e ∈ devEvts, e.isBridge = false) ∧
        (∀ e ∈ brEvts, e.isBridge = true)) ∧
    (∀ e, processDevices cfg b cfg.devices = .error e →
      ∀ bridges', ServerSpecBuilder.add_devices_from_config b
        { cfg with pci_bridges := bridges' } = .error e) := by
  constructor
  · intro b'' h
    unfold ServerSpecBuilder.add_devices_from_config at h
    obtain ⟨bmid, h1, h2⟩ := exceptBind_ok h
    obtain ⟨e1, ht1, hb1⟩ := processDevices_ok_trace cfg cfg.devices b bmid h1
    obtain ⟨e2, ht2, hb2⟩ := processBridges_ok_trace cfg.pci_bridges bmid b'' h2
    refine ⟨e1, e2, ?_, hb1, hb2⟩
    rw [ht2, ht1, List.append_assoc]
  · intro e he bridges'
    unfold ServerSpecBuilder.add_devices_from_config
    simp only [processDevices_bridges_irrelevant, he, except_error_bind]

/-- A configuration whose single device entry has an unrecognized driver. -/
def badCfg : Config :=
  { chipset := ⟨[]⟩, devices := [("weird", ⟨"foo", []⟩)],
    block_devs := [], pci_bridges := [] }

/-- Witness for C8: a failing device table makes the call fail with that
device error even with a non-empty bridge list. -/
theorem claim_C8_devices_before_bridges_witness :
    ServerSpecBuilder.add_devices_from_config sampleBuilder
      { badCfg with pci_bridges := [⟨1, "0.5.0"⟩] } =
      .error (.ConfigTomlError "Unrecognized device type foo") :=
  (claim_C8_devices_before_bridges sampleBuilder badCfg).2
    (.ConfigTomlError "Unrecognized device type foo") rfl [⟨1, "0.5.0"⟩]

/-- C9: `ServerSpecBuilder::finish` is infallible: it consumes the builder
and returns the assembled instance spec directly — the delegate's terminal
freeze of the accumulated content — with no error result and no
validation, dropping or transforming nothing. -/
theorem claim_C9_finish_infallible (b : ServerSpecBuilder) :
    b.finish = b.builder.finish ∧
    b.finish.vcpus = b.builder.vcpus ∧
    b.finish.memory = b.builder.memory ∧
    b.finish.enable_pcie = b.builder.enable_pcie ∧
    b.finish.storage_devices = b.builder.storage_devices ∧
    b.finish.storage_backends = b.builder.storage_backends ∧
    b.finish.network_devices = b.builder.network_devices ∧
    b.finish.network_backends = b.builder.network_backends ∧
    b.finish.pci_bridges = b.builder.pci_bridges ∧
    b.finish.serial_ports = b.builder.serial_ports ∧
    b.finish.pvpanic = b.builder.pvpanic :=
  ⟨rfl, rfl, rfl, rfl, rfl, rfl, rfl, rfl, rfl, rfl, rfl⟩

theorem exceptMapError_error_inv {ε ε' α : Type} {e : Except ε α} {f : ε → ε'}
    {err : ε'} (h : e.mapError f = .error err) :
    ∃ e0, e = .error e0 ∧ f e0 = err := by
  cases e with
  | ok x =>
    rw [except_mapError_ok] at h
    exact Except.noConfusion h
  | error y =>
    rw [except_mapError_error] at h
    injection h with h
    exact ⟨y, rfl, h⟩

theorem head_of_append (s t : String) (c : Char) (h : s.data.head? = some c) :
    (s ++ t).data.head? = some c := by
  rw [String.data_append]
  cases hs : s.data with
  | nil =>
    rw [hs] at h
    exact Option.noConfusion h
  | cons a l =>
    rw [hs] at h
    rw [List.head?_cons] at h
    rw [List.cons_append, List.head?_cons]
    exact h

theorem make_storage_backend_msg {n : String} {bk : BlockDevice} {s : String}
    (h : make_storage_backend_from_config n bk = .error (.ConfigTomlError s)) :
    s.data.head? = some 'C' := by
  by_cases hb : bk.bdtype = "file"
  · simp only [make_storage_backend_from_config, hb] at h
    cases hp : optGet bk.options "path" with
    | none =>
      simp only [hp, except_error_bind] at h
      injection h with h
      injection h with h
      subst h
      exact head_of_append _ _ _ rfl
    | some v =>
      simp only [hp, except_ok_bind] at h
      cases hv : v.as_str with
      | none =>
        simp only [hv, except_error_bind] at h
        injection h with h
        injection h with h
        subst h
        exact head_of_append _ _ _ rfl
      | some p =>
        simp only [hv, except_ok_bind] at h
        exact Except.noConfusion h
  · simp only [make_storage_backend_from_config] at h
    injection h with h
    exact ServerSpecBuilderError.noConfusion h

theorem make_storage_device_msg {n : String} {dev : Device} {s : String}
    (hdrv : dev.driver = "pci-virtio-block" ∨ dev.driver = "pci-nvme")
    (h : make_storage_device_from_config n dev = .error (.ConfigTomlError s)) :
    s.data.head? = some 'C' ∨ s.data.head? = some 'F' := by
  rcases hdrv with hd | hd <;>
  · simp only [make_storage_device_from_config, hd, except_ok_bind] at h
    cases hbd : optGet dev.options "block_dev" with
    | none =>
      simp only [hbd, except_error_bind] at h
      injection h with h
      injection h with h
      subst h
      exact Or.inl (head_of_append _ _ _ rfl)
    | some v =>
      simp only [hbd, except_ok_bind] at h
      cases hvs : v.as_str with
      | none =>
        simp only [hvs, except_error_bind] at h
        injection h with h
        injection h with h
        subst h
        exact Or.inl (head_of_append _ _ _ rfl)
      | some bn =>
        simp only [hvs, except_ok_bind] at h
        cases hpp : dev.getPciPath "pci-path" with
        | none =>
          simp only [hpp, except_error_bind] at h
          injection h with h
          injection h with h
          subst h
          exact Or.inr (head_of_append _ _ _ rfl)
        | some p =>
          simp only [hpp, except_ok_bind] at h
          exact Except.noConfusion h

theorem add_network_device_from_config_msg {b : ServerSpecBuilder} {n : String}
    {dev : Device} {s : String}
    (h : b.add_network_device_from_config n dev = .error (.ConfigTomlError s)) :
    s.data.head? = some 'F' := by
  unfold ServerSpecBuilder.add_network_device_from_config at h
  cases hv : dev.get_string "vnic" with
  | none =>
    simp only [hv, except_error_bind] at h
    injection h with h
    injection h with h
    subst h
    exact head_of_append _ _ _ rfl
  | some vn =>
    simp only [hv, except_ok_bind] at h
    cases hp : dev.getPciPath "pci-path" with
    | none =>
      simp only [hp, except_error_bind] at h
      injection h with h
      injection h with h
      subst h
      exact head_of_append _ _ _ rfl
    | some p =>
      simp only [hp, except_ok_bind] at h
      rcases exceptBind_error h with h' | ⟨st, hx1, hx2⟩
      · obtain ⟨e0, _, hfe⟩ := exceptMapError_error_inv h'
        exact ServerSpecBuilderError.noConfusion hfe
      · exact Except.noConfusion hx2

theorem addDeviceEntry_storage_msg {cfg : Config} {b : ServerSpecBuilder}
    {n : String} {dev : Device} {s : String}
    (hdrv : dev.driver = "pci-virtio-block" ∨ dev.driver = "pci-nvme")
    (h : b.addDeviceEntry cfg n dev = .error (.ConfigTomlError s)) :
    s.data.head? = some 'C' ∨ s.data.head? = some 'F' := by
  rcases hdrv with hd | hd <;>
  · simp only [ServerSpecBuilder.addDeviceEntry, hd] at h
    cases hmk : make_storage_device_from_config n dev with
    | error e' =>
      simp only [hmk, except_error_bind] at h
      injection h with h
      subst h
      exact make_storage_device_msg (by rw [hd]; decide) hmk
    | ok dspec =>
      simp only [hmk, except_ok_bind] at h
      cases hf : (cfg.block_devs.find? (fun p => p.1 = dspec.backendName)).map
          (fun p => p.2) with
      | none =>
        simp only [hf, except_error_bind] at h
        injection h with h
        exact ServerSpecBuilderError.noConfusion h
      | some bcfg =>
        simp only [hf, except_ok_bind] at h
        cases hbk : make_storage_backend_from_config dspec.backendName bcfg with
        | error e' =>
          simp only [hbk, except_error_bind] at h
          injection h with h
          subst h
          exact Or.inl (make_storage_backend_msg hbk)
        | ok bspec =>
          simp only [hbk, except_ok_bind] at h
          rcases exceptBind_error h with h' | ⟨st, hx1, hx2⟩
          · obtain ⟨e0, _, hfe⟩ := exceptMapError_error_inv h'
            exact ServerSpecBuilderError.noConfusion hfe
          · exact Except.noConfusion hx2

theorem addDeviceEntry_msg {cfg : Config} {b : ServerSpecBuilder} {n : String}
    {dev : Device} {s : String}
    (h : b.addDeviceEntry cfg n dev = .error (.ConfigTomlError s)) :
    s.data.head? = some 'C' ∨ s.data.head? = some 'F' ∨
      s.data.head? = some 'U' := by
  by_cases h1 : dev.driver = "pci-virtio-block"
  · rcases addDeviceEntry_storage_msg (Or.inl h1) h with h' | h'
    · exact Or.inl h'
    · exact Or.inr (Or.inl h')
  · by_cases h2 : dev.driver = "pci-nvme"
    · rcases addDeviceEntry_storage_msg (Or.inr h2) h with h' | h'
      · exact Or.inl h'
      · exact Or.inr (Or.inl h')
    · by_cases h3 : dev.driver = "pci-virtio-viona"
      · simp only [ServerSpecBuilder.addDeviceEntry, h3] at h
        exact Or.inr (Or.inl (add_network_device_from_config_msg h))
      · simp only [ServerSpecBuilder.addDeviceEntry] at h
        injection h with h
        injection h with h
        subst h
        exact Or.inr (Or.inr (head_of_append _ _ _ rfl))

theorem processDevices_msg (cfg : Config) :
    ∀ (l : List (String × Device)) (b : ServerSpecBuilder) (s : String),
      processDevices cfg b l = .error (.ConfigTomlError s) →
      s.data.head? = some 'C' ∨ s.data.head? = some 'F' ∨
        s.data.head? = some 'U' := by
  intro l
  induction l with
  | nil =>
    intro b s h
    exact Except.noConfusion h
  | cons hd tl ih =>
    intro b s h
    obtain ⟨nm, dv⟩ := hd
    simp only [processDevices] at h
    rcases exceptBind_error h with h' | ⟨bmid, h1, h2⟩
    · exact addDeviceEntry_msg h'
    · exact ih bmid s h2

theorem add_pci_bridge_from_config_no_toml {b : ServerSpecBuilder}
    {bridge : PciBridge} {s : String}
    (h : b.add_pci_bridge_from_config bridge = .error (.ConfigTomlError s)) :
    False := by
  unfold ServerSpecBuilder.add_pci_bridge_from_config at h
  cases hp : pciPathFromStr bridge.pci_path with
  | none =>
    simp only [hp, except_error_bind] at h
    injection h with h
    exact ServerSpecBuilderError.noConfusion h
  | some p =>
    simp only [hp, except_ok_bind] at h
    rcases exceptBind_error h with h' | ⟨st, hx1, hx2⟩
    · obtain ⟨e0, _, hfe⟩ := exceptMapError_error_inv h'
      exact ServerSpecBuilderError.noConfusion hfe
    · exact Except.noConfusion hx2

theorem processBridges_no_toml :
    ∀ (l : List PciBridge) (b : ServerSpecBuilder) (s : String),
      processBridges b l = .error (.ConfigTomlError s) → False := by
  intro l
  induction l with
  | nil =>
    intro b s h
    exact Except.noConfusion h
  | cons hd tl ih =>
    intro b s h
    simp only [processBridges] at h
    rcases exceptBind_error h with h' | ⟨bmid, h1, h2⟩
    · exact add_pci_bridge_from_config_no_toml h'
    · exact ih bmid s h2

theorem add_devices_from_config_msg {b : ServerSpecBuilder} {cfg : Config}
    {s : String}
    (h : b.add_devices_from_config cfg = .error (.ConfigTomlError s)) :
    s.data.head? = some 'C' ∨ s.data.head? = some 'F' ∨
      s.data.head? = some 'U' := by
  unfold ServerSpecBuilder.add_devices_from_config at h
  rcases exceptBind_error h with h' | ⟨bmid, h1, h2⟩
  · exact processDevices_msg cfg cfg.devices b s h'
  · exact (processBridges_no_toml cfg.pci_bridges bmid s h2).elim

/-- C10: the invalid-driver branch of `make_storage_device_from_config` is
unreachable through `add_devices_from_config`: every configuration-error
message that call can return starts with an upper-case letter of one of
the other branches, so it is never the lower-case `storage device <n> has
invalid driver <d>` message of that branch. -/
theorem claim_C10_invalid_driver_unreachable (b : ServerSpecBuilder)
    (cfg : Config) (s : String)
    (h : b.add_devices_from_config cfg = .error (.ConfigTomlError s)) :
    (s.data.head? = some 'C' ∨ s.data.head? = some 'F' ∨
      s.data.head? = some 'U') ∧
    ∀ nm drv, s ≠ "storage device " ++ nm ++ " has invalid driver " ++ drv := by
  have hh := add_devices_from_config_msg h
  refine ⟨hh, ?_⟩
  intro nm drv heq
  have hhead : s.data.head? = some 's' := by
    rw [heq]
    exact head_of_append _ drv 's'
      (head_of_append _ " has invalid driver " 's'
        (head_of_append "storage device " nm 's' rfl))
  rcases hh with h' | h' | h' <;> rw [hhead] at h' <;> exact absurd h' (by decide)

/-- Witness for C10 at a concrete failing configuration: the unrecognized
driver `foo` yields the `Unrecognized device type` message, which is not
the invalid-driver message. -/
theorem claim_C10_invalid_driver_unreachable_witness :
    (("Unrecognized device type foo" : String).data.head? = some 'C' ∨
     ("Unrecognized device type foo" : String).data.head? = some 'F' ∨
     ("Unrecognized device type foo" : String).data.head? = some 'U') ∧
    ∀ nm drv, ("Unrecognized device type foo" : String) ≠
      "storage device " ++ nm ++ " has invalid driver " ++ drv :=
  claim_C10_invalid_driver_unreachable sampleBuilder badCfg
    "Unrecognized device type foo" rfl
